import Mathlib

/-!
Verification of the Sepatuku storefront backend (src/main.py, src/schemas.py).

Modelling conventions:
* Mongo product documents are modelled by the structure `ProductDoc`, whose fields are
  exactly the keys the seeding code (main.py lines 52-138) writes and the checkout code
  reads; the internal `_id` is modelled as its canonical lowercase 24-hex string `pid`.
* Python `float` amounts (price, total) are modelled as exact integers `Int`: every
  amount the store holds or computes in the scenarios under study is a whole number of
  rupiah, on which Python float arithmetic is exact; the claims concern which values flow
  where, not float rounding.
* Python exceptions raised inside a request handler (bson `InvalidId`, pydantic
  `ValidationError`, `AttributeError`) are modelled as `Except.error` outcomes carrying a
  `CheckoutErr` constructor; `HTTPException` branches carry the corresponding error kind.
* Strings use Lean `String`; the payloads exercised here are ASCII, where Python
  `str.upper`/`str.lower` agree with `Char.toUpper`/`Char.toLower` mapping.
-/

namespace Sepatuku

/-- Modelled from the spec: class `SizeStock` is imported by main.py from schemas.py but is
not defined anywhere under src/; the spec's data model gives
`SizeStock \x7bsize: integer, stock: non-negative integer\x7d`, which is also the shape of the
per-size dictionaries the seeding code writes (main.py lines 61-65). Stock may go negative
in principle, so it is an `Int`. -/
structure SizeStock where
  size : Int
  stock : Int
deriving DecidableEq, Repr

/-- A product document as stored in the `product` collection: the keys written by the
seeding code and read by `checkout`/`list_products` in main.py. `pid` is the canonical
lowercase hex rendering of the Mongo `_id`. -/
structure ProductDoc where
  pid : String
  title : String
  description : Option String
  price : Int
  image : Option String
  brand : String
  category : String
  in_stock : Bool
  sizes : List SizeStock
deriving DecidableEq, Repr

/-- Customer value object (schemas.py lines 27-33). -/
structure Customer where
  name : String
  email : String
  phone : String
  address : String
  city : Option String
  postal_code : Option String
deriving DecidableEq, Repr

/-- OrderItem exactly as declared in schemas.py lines 20-25: fields `product_id`, `title`,
`price`, `quantity` (validated `ge=1`), `image` — and NO `size` field. main.py line 207
passes `size=item.size` to the constructor, but pydantic silently discards unknown keyword
arguments, so the stored snapshot carries no size. -/
structure OrderItem where
  product_id : String
  title : String
  price : Int
  quantity : Int
  image : Option String
deriving DecidableEq, Repr

/-- Order document (schemas.py lines 35-40). `payment_method` and `status` are kept as
strings; `checkout` only ever constructs the literal values admitted by the schema. -/
structure Order where
  items : List OrderItem
  total : Int
  payment_method : String
  status : String
  customer : Customer
deriving DecidableEq, Repr

/-- The requested size of a cart item: `Union[str, int]` (main.py line 170). -/
inductive SizeVal where
  | str : String → SizeVal
  | int : Int → SizeVal
deriving DecidableEq, Repr

/-- CartItem request model (main.py lines 167-170); `quantity : int` has no bound. -/
structure CartItem where
  product_id : String
  quantity : Int
  size : SizeVal
deriving DecidableEq, Repr

/-- CheckoutRequest body (main.py lines 172-175). -/
structure CheckoutRequest where
  items : List CartItem
  customer : Customer
  payment_method : String
deriving DecidableEq, Repr

/-- The failure outcomes a checkout request can produce.  The first four are the
`HTTPException` branches of main.py (lines 189, 191, 197, 212); `orderItemInvalid` is the
pydantic `ValidationError` raised when `OrderItem(quantity=...)` violates `ge=1`
(schemas.py line 24); `orderInvalid` is the pydantic `ValidationError` for
`Order(total=...)` violating `ge=0` (schemas.py line 37); `attributeErrorSize` is the
`AttributeError` raised by `oi.size` in the stock-decrement loop (main.py line 227),
because `OrderItem` declares no `size` attribute. -/
inductive CheckoutErr where
  | productNotFound : String → CheckoutErr
  | productUnavailable : String → CheckoutErr
  | sizeUnavailable : SizeVal → String → CheckoutErr
  | unsupportedPayment : CheckoutErr
  | orderItemInvalid : CheckoutErr
  | orderInvalid : CheckoutErr
  | attributeErrorSize : CheckoutErr
deriving DecidableEq, Repr

/-- The JSON response of a successful checkout (main.py lines 237-255); the optional
`qris_qr_url` key models its conditional presence. -/
structure CheckoutResponse where
  order_id : String
  total : Int
  payment_method : String
  status : String
  instructions : String
  qris_qr_url : Option String
deriving DecidableEq, Repr

/-- The store state touched by checkout: the `product` collection (in its stored order)
and the append-only `order` collection. -/
structure St where
  products : List ProductDoc
  orders : List Order
deriving DecidableEq, Repr

/-- Python `str.lower` on the ASCII payloads used here. -/
def pyLower (s : String) : String := String.mk (s.data.map Char.toLower)

/-- Python `str.upper` on the ASCII payloads used here. -/
def pyUpper (s : String) : String := String.mk (s.data.map Char.toUpper)

/-- Python `str(...)` applied to a `Union[str, int]` size value (main.py line 195):
a string stays itself, an int renders in decimal. -/
def pyStr : SizeVal → String
  | SizeVal.str s => s
  | SizeVal.int n => toString n

/-- Python `int(...)` on the float total (main.py line 247): truncation toward zero,
which is the identity on the integral amounts of this model. -/
def pyInt (t : Int) : Int := t

/-- Uppercase hex digit of a value below 16. -/
def hexDigitUpper (n : Nat) : Char :=
  if n < 10 then Char.ofNat (48 + n) else Char.ofNat (55 + n)

/-- `urllib.parse.quote` on one character (code points below 256): alphanumerics and
`_.-~` plus the default-safe `/` pass through, anything else is percent-encoded. -/
def quoteChar (c : Char) : String :=
  if c.isAlphanum || c = '_' || c = '.' || c = '-' || c = '~' || c = '/' then
    String.singleton c
  else
    String.mk ['%', hexDigitUpper (c.toNat / 16 % 16), hexDigitUpper (c.toNat % 16)]

/-- `urllib.parse.quote` (main.py line 248) on the ASCII payloads used here. -/
def pyQuote (s : String) : String := String.join (s.data.map quoteChar)

/-- A string is accepted by `bson.ObjectId` iff it is 24 hex characters
(main.py line 185 wraps the construction in try/except). -/
def isHexChar (c : Char) : Bool :=
  c.isDigit || ('a' ≤ c && c ≤ 'f') || ('A' ≤ c && c ≤ 'F')

def isValidObjectId (s : String) : Bool :=
  s.length = 24 && s.data.all isHexChar

/-- `db["product"].find_one(\x7b"_id": ObjectId(item.product_id)\x7d)` together with the
surrounding try/except (main.py lines 184-187): a malformed id yields `none`, otherwise
the first document whose id equals the requested one (ObjectId comparison is
case-insensitive on the hex string; `pid` is stored lowercase). -/
def findProduct (db : List ProductDoc) (s : String) : Option ProductDoc :=
  if isValidObjectId s then db.find? (fun p => p.pid == pyLower s) else none

/-- One iteration of the validation loop of `checkout` (main.py lines 183-208): resolve
the product, check `in_stock`, find a size entry by string-coerced comparison
`str(s.get("size")) == str(item.size)` (line 195), check its stock against the quantity,
and build the `OrderItem` snapshot (the `size=` keyword passed at line 207 is discarded by
pydantic, and `quantity` must satisfy `ge=1`).  Returns the item's price contribution
`price * quantity` and the snapshot. -/
def itemStep (db : List ProductDoc) (item : CartItem) : Except CheckoutErr (Int × OrderItem) :=
  match findProduct db item.product_id with
  | none => Except.error (CheckoutErr.productNotFound item.product_id)
  | some prod =>
    if prod.in_stock = false then
      Except.error (CheckoutErr.productUnavailable prod.title)
    else
      match prod.sizes.find? (fun s => toString s.size == pyStr item.size) with
      | none => Except.error (CheckoutErr.sizeUnavailable item.size prod.title)
      | some size_entry =>
        if size_entry.stock < item.quantity then
          Except.error (CheckoutErr.sizeUnavailable item.size prod.title)
        else
          if item.quantity < 1 then
            Except.error CheckoutErr.orderItemInvalid
          else
            Except.ok (prod.price * item.quantity,
              { product_id := prod.pid, title := prod.title, price := prod.price,
                quantity := item.quantity, image := prod.image })

/-- The whole validation loop (main.py lines 180-208): fail-fast over the items in request
order, accumulating `total` and the `order_items` list. -/
def validateItems (db : List ProductDoc) : List CartItem → Except CheckoutErr (Int × List OrderItem)
  | [] => Except.ok (0, [])
  | item :: rest =>
    match itemStep db item with
    | Except.error e => Except.error e
    | Except.ok (amt, oi) =>
      match validateItems db rest with
      | Except.error e => Except.error e
      | Except.ok (t, ois) => Except.ok (amt + t, oi :: ois)

/-- Modelled from the spec: `create_document` lives in database.py, which is not under
src/; the spec's Order Store contract is `insert(order) -> orderId`, append-only.  The
fresh id the store assigns is passed to `checkout` as a parameter. -/
def create_document (orders : List Order) (order : Order) : List Order :=
  orders ++ [order]

/-- The QR payload text `f"SEPATUKU|ORDER:\x7border_id\x7d|TOTAL:\x7bint(total)\x7d"` (main.py line 247). -/
def qrText (order_id : String) (total : Int) : String :=
  ("SEPATUKU|ORDER:") ++ order_id ++ ("|TOTAL:") ++ toString (pyInt total)

/-- The placeholder QR image URL (main.py lines 248-249). -/
def qrUrl (order_id : String) (total : Int) : String :=
  ("https://api.qrserver.com/v1/create-qr-code/?size=220x220&data=") ++ pyQuote (qrText order_id total)

/-- The `POST /checkout` handler (main.py lines 177-255).  After validation and the
payment-method gate, the `Order` is persisted (pydantic first checks `total >= 0`), and
then the stock-decrement loop runs: its first statement evaluates `oi.size`
(main.py line 227), but `OrderItem` declares no `size` field, so on a non-empty item list
the first iteration raises `AttributeError` and no decrement or `in_stock` update is ever
issued; only an empty item list reaches the response. -/
def checkout (st : St) (payload : CheckoutRequest) (order_id : String) :
    Except CheckoutErr CheckoutResponse × St :=
  match validateItems st.products payload.items with
  | Except.error e => (Except.error e, st)
  | Except.ok (total, order_items) =>
    let pm := pyUpper payload.payment_method
    if ¬ (pm = ("COD") ∨ pm = ("QRIS")) then
      (Except.error CheckoutErr.unsupportedPayment, st)
    else if total < 0 then
      (Except.error CheckoutErr.orderInvalid, st)
    else
      let order : Order :=
        { items := order_items, total := total, payment_method := pm,
          status := if pm = ("QRIS") then ("pending") else ("cod-confirmed"),
          customer := payload.customer }
      let st1 : St := { products := st.products, orders := create_document st.orders order }
      match order_items with
      | [] =>
        (Except.ok
          { order_id := order_id, total := total, payment_method := pm, status := order.status,
            instructions :=
              if pm = ("QRIS") then ("Scan QRIS untuk menyelesaikan pembayaran.")
              else ("Pesanan COD dikonfirmasi. Siapkan pembayaran tunai saat kurir datang."),
            qris_qr_url := if pm = ("QRIS") then some (qrUrl order_id total) else none }, st1)
      | _ :: _ => (Except.error CheckoutErr.attributeErrorSize, st1)

/-- A token of the regex fragment exercised by `list_products`: a literal character or the
metacharacter `.` (match any one character). -/
inductive Tok where
  | dot : Tok
  | lit : Char → Tok
deriving DecidableEq, Repr

/-- Reads a pattern string as a token list.  Faithful to PCRE only for strings built from
literal characters and `.`; theorems about literal categories hypothesise
`regexLiteralChar` membership. -/
def tokensOf (pat : String) : List Tok :=
  pat.data.map fun c => if c = '.' then Tok.dot else Tok.lit c

/-- Case-insensitive single-token match (the `"$options": "i"` flag). -/
def tokMatches : Tok → Char → Bool
  | Tok.dot, _ => true
  | Tok.lit l, c => l.toLower == c.toLower

/-- Anchored match `^pat$`: the token list must consume the whole string. -/
def matchFull : List Tok → List Char → Bool
  | [], [] => true
  | [], _ :: _ => false
  | _ :: _, [] => false
  | t :: ts, c :: cs => tokMatches t c && matchFull ts cs

/-- Pattern matches some leading segment of the character list. -/
def matchHere : List Tok → List Char → Bool
  | [], _ => true
  | _ :: _, [] => false
  | t :: ts, c :: cs => tokMatches t c && matchHere ts cs

/-- Unanchored search: the pattern matches somewhere inside the character list. -/
def matchSomewhere (ts : List Tok) : List Char → Bool
  | [] => matchHere ts []
  | c :: cs => matchHere ts (c :: cs) || matchSomewhere ts cs

/-- The category filter of `list_products` (main.py line 161):
`\x7b"$regex": f"^\x7bcategory\x7d$", "$options": "i"\x7d`, an anchored case-insensitive regex
match of the raw `category` parameter against the stored category. -/
def categoryRegexMatch (category s : String) : Bool :=
  matchFull (tokensOf category) s.data

/-- The free-text filter of `list_products` (main.py lines 154-159): an unanchored
case-insensitive regex search of `q` in a field. -/
def textRegexMatch (q s : String) : Bool :=
  matchSomewhere (tokensOf q) s.data

/-- Whether a product document satisfies the Mongo query built by `list_products`
(main.py lines 152-162); `q`/`category` equal to `""` are falsy in Python and add no
filter. -/
def productQueryPass (q category : Option String) (p : ProductDoc) : Bool :=
  (match q with
   | none => true
   | some qs =>
     if qs = ("") then true
     else
       textRegexMatch qs p.title ||
       (match p.description with
        | none => false
        | some d => textRegexMatch qs d) ||
       textRegexMatch qs p.brand ||
       textRegexMatch qs p.category) &&
  (match category with
   | none => true
   | some c => if c = ("") then true else categoryRegexMatch c p.category)

/-- Characters `a == b` as a prefix test on character lists (Python `in` helper). -/
def startsWithSeq : List Char → List Char → Bool
  | [], _ => true
  | _ :: _, [] => false
  | a :: as, b :: bs => a == b && startsWithSeq as bs

/-- Python `needle in hay` on character lists. -/
def containsSeq (needle : List Char) : List Char → Bool
  | [] => startsWithSeq needle []
  | c :: cs => startsWithSeq needle (c :: cs) || containsSeq needle cs

/-- `fix_image_urls` (main.py lines 36-41): products whose lowercased title contains
`street classic` get their image replaced. -/
def fix_image_urls (p : ProductDoc) : ProductDoc :=
  if containsSeq (("street classic").data) ((pyLower p.title).data) then
    { p with image := some ("https://images.unsplash.com/photo-1519741495605-1f7f1c080b42?w=800&q=80&auto=format&fit=crop") }
  else p

/-- The `GET /products` handler (main.py lines 150-165): filter by the query, then apply
`fix_image_urls` to each result (`to_str_id` only renames `_id` to `id`, which the model
already presents as the string `pid`). -/
def list_products (db : List ProductDoc) (q category : Option String) : List ProductDoc :=
  (db.filter (productQueryPass q category)).map fix_image_urls

/-- Accumulator pass over decimal digit characters; `none` on a non-digit. -/
def decNatAux : Nat → List Char → Option Nat
  | acc, [] => some acc
  | acc, c :: cs => if c.isDigit then decNatAux (acc * 10 + (c.toNat - 48)) cs else none

/-- The integer a decimal numeral string denotes (an optional minus sign followed by at
least one digit); `none` for any other string. -/
def strToIntVal (s : String) : Option Int :=
  match s.data with
  | [] => none
  | '-' :: c :: cs =>
    if c.isDigit then (decNatAux 0 (c :: cs)).map (fun n => -(n : Int)) else none
  | c :: cs =>
    if c.isDigit then (decNatAux 0 (c :: cs)).map (fun n => (n : Int)) else none

/-- Restatement of claim C7's size-equivalence in the spec's words, for comparison with
the code's string-coerced match: a requested size matches a stored numeric size when they
denote the same value — an integer request by value equality, a string request by the
integer value its digits denote. -/
def specSizeEquiv (req : SizeVal) (stored : Int) : Bool :=
  match req with
  | SizeVal.int n => n == stored
  | SizeVal.str s => strToIntVal s == some stored

/-- Claim C7's failure condition, in the spec's words: the size check fails iff no stored
entry matches the requested size under numeric/string value equivalence, or the matching
entry's stock is below the requested quantity. -/
def specSizeFail (sizes : List SizeStock) (req : SizeVal) (qty : Int) : Bool :=
  match sizes.find? (fun s => specSizeEquiv req s.size) with
  | none => true
  | some e => e.stock < qty

/-- The code's size-check failure condition (main.py lines 195-196): no stored entry whose
decimal rendering equals the string form of the requested size, or the first such entry's
stock below the requested quantity. -/
def codeSizeFail (sizes : List SizeStock) (req : SizeVal) (qty : Int) : Bool :=
  match sizes.find? (fun s => toString s.size == pyStr req) with
  | none => true
  | some e => e.stock < qty

/-- Discriminator: did the item step fail with the `SizeUnavailable` error? -/
def isSizeUnavailable : Except CheckoutErr (Int × OrderItem) → Bool
  | Except.error (CheckoutErr.sizeUnavailable _ _) => true
  | _ => false

/-- The three client-input validation errors of the per-item loop (claim C3's taxonomy);
excludes the payment gate and the internal pydantic/attribute failures. -/
def isValidationErr : CheckoutErr → Bool
  | CheckoutErr.productNotFound _ => true
  | CheckoutErr.productUnavailable _ => true
  | CheckoutErr.sizeUnavailable _ _ => true
  | _ => false

/-- The stored price a cart item is charged at: the price of the product its id resolves
to (0 when unresolved — unreachable for validated items). -/
def priceOf (db : List ProductDoc) (pid : String) : Int :=
  match findProduct db pid with
  | some prod => prod.price
  | none => 0

/-- A plain-literal regex character: one that PCRE treats as itself and that the modelled
fragment covers. -/
def regexLiteralChar (c : Char) : Bool :=
  c.isAlphanum || c = ' ' || c = '-' || c = '_'

/- ### Concrete fixtures (the seeded Runner Pro product, main.py lines 53-66) -/

def runnerPid : String := ("64b1f0a2c3d4e5f601234501")

def runnerImage : String :=
  ("https://images.unsplash.com/photo-1542291026-7eec264c27ff?w=800&q=80&auto=format&fit=crop")

def runnerPro : ProductDoc :=
  { pid := runnerPid, title := ("Sepatuku Runner Pro"),
    description := some ("Sepatu lari ringan dengan bantalan empuk."),
    price := 499000, image := some runnerImage, brand := ("Sepatuku"),
    category := ("Running"), in_stock := true,
    sizes := [{ size := 40, stock := 10 }, { size := 41, stock := 12 }, { size := 42, stock := 8 }] }

def cust0 : Customer :=
  { name := ("Budi"), email := ("budi@example.com"), phone := ("0812"),
    address := ("Jl. Mawar 1"), city := none, postal_code := none }

def st0 : St := { products := [runnerPro], orders := [] }

/-- Cart item: quantity 3 at size 40 against Runner Pro (stock 10). -/
def item40x3 : CartItem := { product_id := runnerPid, quantity := 3, size := SizeVal.int 40 }

def req_cod3 : CheckoutRequest :=
  { items := [item40x3], customer := cust0, payment_method := ("COD") }

def req_qris3 : CheckoutRequest :=
  { items := [item40x3], customer := cust0, payment_method := ("qris") }

def req_qris_empty : CheckoutRequest :=
  { items := [], customer := cust0, payment_method := ("qris") }

/-- Cart item: quantity 6 at size 40 — passes alone, but two of them exceed stock 10. -/
def item40x6 : CartItem := { product_id := runnerPid, quantity := 6, size := SizeVal.int 40 }

def req_two6 : CheckoutRequest :=
  { items := [item40x6, item40x6], customer := cust0, payment_method := ("COD") }

/-- The OrderItem snapshot the code actually stores for `item40x3` (no size field). -/
def oi40x3 : OrderItem :=
  { product_id := runnerPid, title := ("Sepatuku Runner Pro"), price := 499000,
    quantity := 3, image := some runnerImage }

def oi40x6 : OrderItem :=
  { product_id := runnerPid, title := ("Sepatuku Runner Pro"), price := 499000,
    quantity := 6, image := some runnerImage }

/-- A cart item with a malformed product id (not a 24-hex ObjectId string). -/
def badItem : CartItem := { product_id := ("zz"), quantity := 1, size := SizeVal.int 40 }

/-- A valid item followed by one with a malformed product id. -/
def req_bad : CheckoutRequest :=
  { items := [item40x3, badItem], customer := cust0, payment_method := ("COD") }

/-- A valid cart paying by an unsupported method. -/
def req_bank : CheckoutRequest :=
  { items := [item40x3], customer := cust0, payment_method := ("bank_transfer") }

/-- Requested size given as the string `040`: same numeric value as stored size 40,
different decimal rendering. -/
def item040 : CartItem :=
  { product_id := runnerPid, quantity := 1, size := SizeVal.str ("040") }

/-- Quantity 15 at size 40 (stock 10): under-stocked. -/
def item40x15 : CartItem :=
  { product_id := runnerPid, quantity := 15, size := SizeVal.str ("40") }

/-- Quantity 0 at size 40. -/
def item40x0 : CartItem :=
  { product_id := runnerPid, quantity := 0, size := SizeVal.int 40 }

/-- The order persisted for `req_cod3` (the snapshot list is `[oi40x3]`: no size). -/
def order_cod3 : Order :=
  { items := [oi40x3], total := 1497000, payment_method := ("COD"),
    status := ("cod-confirmed"), customer := cust0 }

/-- The response of the empty-cart QRIS checkout with order id `ord1`: the QR URL encodes
the order id and the integer-truncated total 0. -/
def respQrisEmpty : CheckoutResponse :=
  { order_id := ("ord1"), total := 0, payment_method := ("QRIS"), status := ("pending"),
    instructions := ("Scan QRIS untuk menyelesaikan pembayaran."),
    qris_qr_url := some (("https://api.qrserver.com/v1/create-qr-code/?size=220x220&data=SEPATUKU%7CORDER%3Aord1%7CTOTAL%3A0")) }

/- ### Helper lemmas -/

theorem validateItems_eq_error (db : List ProductDoc) (pre : List CartItem) (bad : CartItem)
    (post : List CartItem) (e : CheckoutErr)
    (hpre : ∀ it ∈ pre, (itemStep db it).isOk = true)
    (hbad : itemStep db bad = Except.error e) :
    validateItems db (pre ++ bad :: post) = Except.error e := by
  induction pre with
  | nil =>
    rw [List.nil_append]
    unfold validateItems
    rw [hbad]
  | cons a rest ih =>
    have ha : (itemStep db a).isOk = true := hpre a (by simp)
    obtain ⟨v, hv⟩ : ∃ v, itemStep db a = Except.ok v := by
      cases h : itemStep db a with
      | error e2 => rw [h] at ha; simp [Except.isOk, Except.toBool] at ha
      | ok v => exact ⟨v, rfl⟩
    obtain ⟨amt, oi⟩ := v
    rw [List.cons_append]
    unfold validateItems
    rw [hv, ih (fun it hit => hpre it (by simp [hit]))]

theorem itemStep_ok_price (db : List ProductDoc) (a : CartItem) (amt : Int) (oi : OrderItem)
    (h : itemStep db a = Except.ok (amt, oi)) :
    amt = priceOf db a.product_id * a.quantity := by
  unfold itemStep at h
  cases hf : findProduct db a.product_id with
  | none => rw [hf] at h; cases h
  | some prod =>
    rw [hf] at h
    dsimp only at h
    unfold priceOf
    rw [hf]
    dsimp only
    by_cases h1 : prod.in_stock = false
    · rw [if_pos h1] at h; cases h
    · rw [if_neg h1] at h
      cases hm : prod.sizes.find? (fun s => toString s.size == pyStr a.size) with
      | none => rw [hm] at h; cases h
      | some se =>
        rw [hm] at h
        dsimp only at h
        by_cases h2 : se.stock < a.quantity
        · rw [if_pos h2] at h; cases h
        · rw [if_neg h2] at h
          by_cases h3 : a.quantity < 1
          · rw [if_pos h3] at h; cases h
          · rw [if_neg h3] at h
            simp only [Except.ok.injEq, Prod.mk.injEq] at h
            exact h.1.symm

theorem matchFull_lit (cs ss : List Char) (h : ∀ ch ∈ cs, regexLiteralChar ch = true) :
    matchFull (cs.map fun c => if c = '.' then Tok.dot else Tok.lit c) ss = true ↔
      cs.map Char.toLower = ss.map Char.toLower := by
  induction cs generalizing ss with
  | nil => cases ss <;> simp [matchFull]
  | cons a as ih =>
    have ha : regexLiteralChar a = true := h a (by simp)
    have hdot : ¬ (a = '.') := by
      intro hcontra
      rw [hcontra] at ha
      exact absurd ha (by decide)
    cases ss with
    | nil => simp [matchFull, hdot]
    | cons b bs =>
      simp only [List.map_cons, if_neg hdot, matchFull, tokMatches, Bool.and_eq_true,
        beq_iff_eq, List.cons.injEq]
      rw [ih bs (fun ch hch => h ch (by simp [hch]))]

theorem categoryRegexMatch_literal (c s : String)
    (h : ∀ ch ∈ c.data, regexLiteralChar ch = true) :
    categoryRegexMatch c s = true ↔ pyLower s = pyLower c := by
  unfold categoryRegexMatch tokensOf
  rw [matchFull_lit c.data s.data h, String.ext_iff]
  exact eq_comm

/- ### Claim theorems -/

/-- Claim C1 (code bug): the claim says a successful checkout decrements the size's stock
by the requested quantity and rederives `in_stock`.  In the code no checkout with a cart
item ever returns: the decrement loop's first read of `oi.size` (main.py line 227) raises
`AttributeError` because `OrderItem` (schemas.py lines 20-25) declares no `size` field.
At the seeded Runner Pro product with stock 10 at size 40 and a COD cart of quantity 3,
checkout ends in the attribute error and the product collection — including the stock
entry for size 40 — is left completely unchanged: nothing is ever decremented. -/
theorem c1_checkout_crashes_before_any_decrement :
    (checkout st0 req_cod3 ("ord1")).1 = Except.error CheckoutErr.attributeErrorSize ∧
    (checkout st0 req_cod3 ("ord1")).2.products = [runnerPro] :=
  ⟨rfl, rfl⟩

/-- Claim C2 (code bug): the claim says each stored OrderItem snapshots product id, title,
unit price, quantity, image AND the requested size.  The `OrderItem` model of schemas.py
has no `size` field, so the `size=item.size` keyword passed at main.py line 207 is
silently discarded: the order persisted for a COD cart of quantity 3 at size 40 contains
exactly the five-field snapshot `oi40x3`, with no record of the requested size. -/
theorem c2_stored_snapshot_has_no_size_field :
    (checkout st0 req_cod3 ("ord2")).2.orders = [order_cod3] :=
  rfl

/-- Claim C3: if every cart item before some invalid item validates, and that item fails
one of the three per-item validation checks (unknown/malformed product id, product not in
stock, size missing or under-stocked), then the whole checkout aborts with exactly that
item's error and the store state — products and orders alike — is unchanged. -/
theorem c3_first_invalid_item_aborts_without_side_effects (st : St) (cust : Customer)
    (pm order_id : String) (pre : List CartItem) (bad : CartItem) (post : List CartItem)
    (e : CheckoutErr)
    (hpre : ∀ it ∈ pre, (itemStep st.products it).isOk = true)
    (hbad : itemStep st.products bad = Except.error e)
    (he : isValidationErr e = true) :
    checkout st { items := pre ++ bad :: post, customer := cust, payment_method := pm } order_id
      = (Except.error e, st) := by
  unfold checkout
  dsimp only
  rw [validateItems_eq_error st.products pre bad post e hpre hbad]

/-- Witness for C3: a valid first item followed by a malformed product id aborts the whole
checkout with `ProductNotFound` and leaves the store untouched. -/
theorem c3_witness :
    checkout st0 req_bad ("ord1") = (Except.error (CheckoutErr.productNotFound ("zz")), st0) :=
  c3_first_invalid_item_aborts_without_side_effects st0 cust0 ("COD") ("ord1")
    [item40x3] badItem [] (CheckoutErr.productNotFound ("zz"))
    (by decide) (by rfl) (by rfl)

/-- Claim C4: whenever the validation loop succeeds, the accumulated total equals the sum
over the cart items of the stored product price times the requested quantity.  The request
model `CartItem` carries no price field at all, so no client-supplied price can enter the
sum: every factor is `priceOf`, read from the product collection. -/
theorem c4_total_is_sum_of_store_prices (db : List ProductDoc) (items : List CartItem)
    (total : Int) (ois : List OrderItem)
    (h : validateItems db items = Except.ok (total, ois)) :
    total = (items.map fun it => priceOf db it.product_id * it.quantity).sum := by
  induction items generalizing total ois with
  | nil =>
    unfold validateItems at h
    simp only [Except.ok.injEq, Prod.mk.injEq] at h
    rw [← h.1]
    simp
  | cons a rest ih =>
    unfold validateItems at h
    cases hstep : itemStep db a with
    | error e => rw [hstep] at h; cases h
    | ok v =>
      obtain ⟨amt, oi⟩ := v
      rw [hstep] at h
      dsimp only at h
      cases hrest : validateItems db rest with
      | error e => rw [hrest] at h; cases h
      | ok p =>
        obtain ⟨t, ois2⟩ := p
        rw [hrest] at h
        dsimp only at h
        simp only [Except.ok.injEq, Prod.mk.injEq] at h
        rw [List.map_cons, List.sum_cons, ← h.1, itemStep_ok_price db a amt oi hstep,
          ih t ois2 hrest]

/-- Witness for C4: the Runner Pro cart of quantity 3 validates to total 1497000, which is
the stored price 499000 times 3. -/
theorem c4_witness :
    (1497000 : Int) =
      (([item40x3]).map fun it => priceOf [runnerPro] it.product_id * it.quantity).sum :=
  c4_total_is_sum_of_store_prices [runnerPro] [item40x3] 1497000 [oi40x3] (by rfl)

/-- Claim C5 (code bug): the payment method is normalized to uppercase and drives the
created order's status (lowercase `qris` yields a `pending` order with payment method
`QRIS`), but for any non-empty valid cart the response — and with it the promised QR
reference URL — is never produced, because the decrement loop raises `AttributeError`
first.  Only the degenerate empty cart reaches the response, where the QR URL does encode
the order id and the integer-truncated total. -/
theorem c5_qris_status_set_but_response_unreachable :
    (checkout st0 req_qris3 ("ord1")).1 = Except.error CheckoutErr.attributeErrorSize ∧
    ((checkout st0 req_qris3 ("ord1")).2.orders.map Order.status) = [("pending")] ∧
    ((checkout st0 req_qris3 ("ord1")).2.orders.map Order.payment_method) = [("QRIS")] ∧
    (checkout st0 req_qris_empty ("ord1")).1 = Except.ok respQrisEmpty :=
  ⟨rfl, rfl, rfl, rfl⟩

/-- Claim C6: once all items validate, the checkout fails with
`UnsupportedPaymentMethod` exactly when the uppercased payment method is neither COD nor
QRIS, and in that case it fails before creating any order or touching any stock: the
state is returned unchanged. -/
theorem c6_unsupported_payment_gate (st : St) (payload : CheckoutRequest) (order_id : String)
    (total : Int) (ois : List OrderItem)
    (hv : validateItems st.products payload.items = Except.ok (total, ois)) :
    ((checkout st payload order_id).1 = Except.error CheckoutErr.unsupportedPayment ↔
      ¬ (pyUpper payload.payment_method = ("COD") ∨ pyUpper payload.payment_method = ("QRIS"))) ∧
    (¬ (pyUpper payload.payment_method = ("COD") ∨ pyUpper payload.payment_method = ("QRIS")) →
      checkout st payload order_id = (Except.error CheckoutErr.unsupportedPayment, st)) := by
  unfold checkout
  rw [hv]
  dsimp only
  by_cases hpm : pyUpper payload.payment_method = ("COD") ∨ pyUpper payload.payment_method = ("QRIS")
  · rw [if_neg (not_not_intro hpm)]
    refine ⟨⟨fun hcontra => ?_, fun hno => absurd hpm hno⟩, fun hno => absurd hpm hno⟩
    by_cases ht : total < 0
    · rw [if_pos ht] at hcontra
      simp at hcontra
    · rw [if_neg ht] at hcontra
      cases ois with
      | nil => simp at hcontra
      | cons o os => simp at hcontra
  · rw [if_pos hpm]
    exact ⟨⟨fun _ => hpm, fun _ => rfl⟩, fun _ => rfl⟩

/-- Witness for C6: payment method `bank_transfer` on an otherwise valid cart yields
`UnsupportedPaymentMethod` and leaves the state unchanged. -/
theorem c6_witness :
    ((checkout st0 req_bank ("ord1")).1 = Except.error CheckoutErr.unsupportedPayment ↔
      ¬ (pyUpper ("bank_transfer") = ("COD") ∨ pyUpper ("bank_transfer") = ("QRIS"))) ∧
    (¬ (pyUpper ("bank_transfer") = ("COD") ∨ pyUpper ("bank_transfer") = ("QRIS")) →
      checkout st0 req_bank ("ord1") = (Except.error CheckoutErr.unsupportedPayment, st0)) :=
  c6_unsupported_payment_gate st0 req_bank ("ord1") 1497000 [oi40x3] (by rfl)

/-- Counterexample to C7 as stated: the requested size string `040` denotes the same
numeric value as the stored size 40 (the spec-worded equivalence `specSizeFail` is
satisfied: a matching entry exists with stock 10 ≥ quantity 1), yet the code's
string-coerced comparison `str(40) == "040"` fails and checkout reports
`SizeUnavailable` — so the claimed iff is false at this input, against a found, in-stock
product. -/
theorem c7_counterexample_leading_zero :
    findProduct [runnerPro] runnerPid = some runnerPro ∧
    runnerPro.in_stock = true ∧
    ¬ (isSizeUnavailable (itemStep [runnerPro] item040) = true ↔
        specSizeFail runnerPro.sizes item040.size item040.quantity = true) := by
  refine ⟨rfl, rfl, ?_⟩
  decide

/-- Claim C7 amended: for a cart item against a found, in-stock product, the size check
fails with `SizeUnavailable` iff no stored entry's decimal rendering equals the string
form of the requested size (the string itself, or the decimal rendering of an integer
request), or the first such entry's stock is below the requested quantity — matching is by
string coercion, not by numeric value. -/
theorem c7_size_gate_is_string_coercion (db : List ProductDoc) (item : CartItem)
    (prod : ProductDoc) (hf : findProduct db item.product_id = some prod)
    (hs : prod.in_stock = true) :
    (isSizeUnavailable (itemStep db item) = true ↔
      codeSizeFail prod.sizes item.size item.quantity = true) := by
  unfold itemStep codeSizeFail
  rw [hf]
  dsimp only
  have h1 : ¬ (prod.in_stock = false) := by simp [hs]
  rw [if_neg h1]
  cases hm : prod.sizes.find? (fun s => toString s.size == pyStr item.size) with
  | none =>
    dsimp only
    simp [isSizeUnavailable]
  | some se =>
    dsimp only
    by_cases h2 : se.stock < item.quantity
    · rw [if_pos h2]
      simp [isSizeUnavailable, h2]
    · rw [if_neg h2]
      by_cases h3 : item.quantity < 1
      · rw [if_pos h3]
        simp [isSizeUnavailable, h2]
      · rw [if_neg h3]
        simp [isSizeUnavailable, h2]

/-- Witness for C7 amended: quantity 15 against stock 10 at size 40 fires the size gate,
and the string-coercion failure condition agrees. -/
theorem c7_witness :
    (isSizeUnavailable (itemStep [runnerPro] item40x15) = true ↔
      codeSizeFail runnerPro.sizes item40x15.size item40x15.quantity = true) :=
  c7_size_gate_is_string_coercion [runnerPro] item40x15 runnerPro (by rfl) (by rfl)

/-- Counterexample to C8 as stated: the category parameter `Run.ing` is not
case-insensitively equal to the stored category `Running`, yet the listing returns the
Runner Pro product, because the parameter is spliced into an anchored regex where `.`
matches any character. -/
theorem c8_counterexample_dot_pattern :
    list_products [runnerPro] none (some ("Run.ing")) = [runnerPro] ∧
    ¬ (pyLower runnerPro.category = pyLower ("Run.ing")) := by
  refine ⟨?_, by decide⟩
  rfl

/-- Claim C8 amended: for a non-empty category parameter made only of plain literal
characters (letters, digits, space, hyphen, underscore — no regex metacharacters), the
product listing returns exactly the products whose category is case-insensitively equal
to it (each passed through `fix_image_urls`, which does not touch the category). -/
theorem c8_category_filter_exact_for_literal_patterns (db : List ProductDoc) (c : String)
    (hne : ¬ (c = (""))) (h : ∀ ch ∈ c.data, regexLiteralChar ch = true) :
    list_products db none (some c) =
      (db.filter fun p => pyLower p.category == pyLower c).map fix_image_urls := by
  unfold list_products
  congr 1
  apply List.filter_congr
  intro p _
  unfold productQueryPass
  dsimp only
  rw [if_neg hne, Bool.true_and, Bool.eq_iff_iff]
  simp only [beq_iff_eq]
  exact categoryRegexMatch_literal c p.category h

/-- Witness for C8 amended: the literal category `Running` returns exactly the
case-insensitive matches. -/
theorem c8_witness :
    list_products [runnerPro] none (some ("Running")) =
      (([runnerPro]).filter fun p => pyLower p.category == pyLower ("Running")).map fix_image_urls :=
  c8_category_filter_exact_for_literal_patterns [runnerPro] ("Running") (by decide) (by decide)

/-- Claim C9 (code bug): two cart items for the same product and size are each validated
against the same pre-checkout stock (6 ≤ 10 twice, though 6 + 6 > 10), and the validation
loop accepts the cart — but the claimed decrement of the combined quantity 12 never
happens: the decrement loop raises `AttributeError` on `oi.size` and the product
collection is returned unchanged. -/
theorem c9_duplicate_items_validated_against_same_stock_then_crash :
    validateItems [runnerPro] [item40x6, item40x6] = Except.ok (5988000, [oi40x6, oi40x6]) ∧
    ((6 : Int) ≤ 10 ∧ 10 < 6 + 6) ∧
    (checkout { products := [runnerPro], orders := [] } req_two6 ("ord1")).1 =
      Except.error CheckoutErr.attributeErrorSize ∧
    (checkout { products := [runnerPro], orders := [] } req_two6 ("ord1")).2.products =
      [runnerPro] :=
  ⟨rfl, by decide, rfl, rfl⟩

/-- Claim C10: a cart item with zero or negative quantity against a found, in-stock
product with a matching size entry of non-negative stock never trips the size gate:
`stock < quantity` is false, so checkout does not fail with `SizeUnavailable` (the request
model puts no lower bound on `quantity`). -/
theorem c10_nonpositive_quantity_passes_size_check (db : List ProductDoc) (item : CartItem)
    (prod : ProductDoc) (entry : SizeStock)
    (hf : findProduct db item.product_id = some prod)
    (hs : prod.in_stock = true)
    (hm : prod.sizes.find? (fun s => toString s.size == pyStr item.size) = some entry)
    (hst : 0 ≤ entry.stock) (hq : item.quantity ≤ 0) :
    isSizeUnavailable (itemStep db item) = false := by
  unfold itemStep
  rw [hf]
  dsimp only
  have h1 : ¬ (prod.in_stock = false) := by simp [hs]
  rw [if_neg h1, hm]
  dsimp only
  have h2 : ¬ (entry.stock < item.quantity) := by omega
  rw [if_neg h2]
  have h3 : item.quantity < 1 := by omega
  rw [if_pos h3]
  rfl

/-- Witness for C10: quantity 0 at size 40 (stock 10) does not produce
`SizeUnavailable`. -/
theorem c10_witness :
    isSizeUnavailable (itemStep [runnerPro] item40x0) = false :=
  c10_nonpositive_quantity_passes_size_check [runnerPro] item40x0
    runnerPro { size := 40, stock := 10 }
    (by rfl) (by rfl) (by rfl) (by decide) (by decide)

end Sepatuku
